import Mathlib

/-!
Verification development for the Giphy Mattermost plugin (plugin.go).

Strings are embedded as `List Char`; Go string literals are written with
`String.toList`.  Methods on `*GiphyPlugin` are embedded in state-passing
style: each takes the receiver and returns the (possibly updated) receiver
together with its Go results.  A Go pair `(value, error)` where exactly one
side is non-nil is embedded as `Except`; a plain `error` result as
`Option (List Char)` (the error message, i.e. `err.Error()`).  Host-side
effects (loading the plugin configuration, registering commands) are
external nondeterminism and are passed in as explicit outcome arguments.
-/

namespace Giphy

/-- Trigger constant `triggerGif = "gif"` from plugin.go. -/
def triggerGif : List Char := "gif".toList

/-- Trigger constant `triggerGifs = "gifs"` from plugin.go. -/
def triggerGifs : List Char := "gifs".toList

/-- Struct `GiphyPluginConfiguration` from plugin.go. -/
structure GiphyPluginConfiguration where
  Rating : List Char
  Language : List Char
  Rendition : List Char
  ResponseTemplate : List Char
  APIKey : List Char
deriving DecidableEq

/-- The `gifProvider` interface: each method takes the configuration and the
keywords and returns either an error message or its result.  The concrete
HTTP-backed implementation is an external collaborator; theorems quantify
over arbitrary providers. -/
structure GifProvider where
  getGifURL : GiphyPluginConfiguration → List Char → Except (List Char) (List Char)
  getMultipleGifsURL : GiphyPluginConfiguration → List Char → Except (List Char) (List (List Char))

/-- The `GiphyPlugin` struct from plugin.go.  The `api plugin.API` handle is
only ever compared against nil and used for host calls whose outcomes are
passed in explicitly, so it is embedded as `Option Unit`; the
`configuration atomic.Value` cell is embedded as the configuration value it
currently holds. -/
structure GiphyPlugin where
  api : Option Unit
  configuration : GiphyPluginConfiguration
  gifProvider : GifProvider
  enabled : Bool

/-- Struct `model.CommandArgs`: only the `Command` field is read by the plugin. -/
structure CommandArgs where
  Command : List Char

/-- Struct `model.CommandResponse`: response type (visibility) and text body. -/
structure CommandResponse where
  ResponseType : List Char
  Text : List Char
deriving DecidableEq

/-- Constant `model.COMMAND_RESPONSE_TYPE_IN_CHANNEL`. -/
def COMMAND_RESPONSE_TYPE_IN_CHANNEL : List Char := "in_channel".toList

/-- Constant `model.COMMAND_RESPONSE_TYPE_EPHEMERAL`. -/
def COMMAND_RESPONSE_TYPE_EPHEMERAL : List Char := "ephemeral".toList

/-- Struct `model.AppError` as built by `model.NewAppError(where, id, nil, details,
statusCode)`: `NewAppError` stores `where` in `Where`, `id` in `Message`,
`details` in `DetailedError` and `statusCode` in `StatusCode`. -/
structure AppError where
  Where : List Char
  Message : List Char
  DetailedError : List Char
  StatusCode : Nat
deriving DecidableEq

/-- Helper `appError` from plugin.go: wraps a message and an optional underlying
error into a `model.AppError` with `http.StatusBadRequest` (400). -/
def appError (message : List Char) (err : Option (List Char)) : AppError :=
  let errorMessage : List Char :=
    match err with
    | some e => e
    | none => []
  { Where := "Giphy Plugin".toList
    Message := message
    DetailedError := errorMessage
    StatusCode := 400 }

/-- Method `config()` from plugin.go: load the current configuration snapshot. -/
def config (p : GiphyPlugin) : GiphyPluginConfiguration :=
  p.configuration

/-- Hook `OnConfigurationChange` from plugin.go.  `loadOutcome` is the outcome of
the host call `api.LoadPluginConfiguration(&configuration)`: the struct
contents after the call (zero-valued or partial when the call fails)
together with the returned error.  The snapshot is stored unconditionally
and the load error is returned. -/
def OnConfigurationChange (p : GiphyPlugin)
    (loadOutcome : GiphyPluginConfiguration × Option (List Char)) :
    GiphyPlugin × Option (List Char) :=
  ({ p with configuration := loadOutcome.1 }, loadOutcome.2)

/-- Hook `OnDeactivate` from plugin.go: clears the enabled flag, returns nil. -/
def OnDeactivate (p : GiphyPlugin) : GiphyPlugin × Option (List Char) :=
  ({ p with enabled := false }, none)

/-- Hook `OnActivate` from plugin.go: stores the api handle, sets the enabled
flag, registers the two commands (their outcomes are the external arguments
`reg1` and `reg2`), and on success delegates to `OnConfigurationChange`. -/
def OnActivate (p : GiphyPlugin) (reg1 reg2 : Option (List Char))
    (loadOutcome : GiphyPluginConfiguration × Option (List Char)) :
    GiphyPlugin × Option (List Char) :=
  let p1 : GiphyPlugin := { p with api := some (), enabled := true }
  match reg1 with
  | some e => (p1, some e)
  | none =>
    match reg2 with
    | some e => (p1, some e)
    | none => OnConfigurationChange p1 loadOutcome

/-- Go call `strings.Replace(s, pat, "", 1)` for the patterns used in plugin.go:
delete the first occurrence of `pat` in `s` (no change when absent). -/
def replaceFirst : List Char → List Char → List Char
  | s, pat =>
    if pat.isPrefixOf s then s.drop pat.length
    else
      match s with
      | [] => []
      | c :: cs => c :: replaceFirst cs pat

/-- Go call `strings.Trim(s, " ")`: remove leading and trailing spaces. -/
def trimSpaces (s : List Char) : List Char :=
  ((s.dropWhile (fun c => c == ' ')).reverse.dropWhile (fun c => c == ' ')).reverse

/-- Function `getCommandKeywords` from plugin.go. -/
def getCommandKeywords (commandLine : List Char) (trigger : List Char) : List Char :=
  trimSpaces (replaceFirst commandLine ('/' :: trigger))

/-- The fixed replacement for `##VIA_GIPHY##` in plugin.go. -/
def viaGiphy : List Char :=
  "via ![giphy](https://giphy.com/static/img/favicon.png)".toList

/-- The placeholder token "##KEYWORDS##". -/
def tokKEYWORDS : List Char := "##KEYWORDS##".toList

/-- The placeholder token "##GIF_URL##". -/
def tokGIFURL : List Char := "##GIF_URL##".toList

/-- The placeholder token "##VIA_GIPHY##". -/
def tokVIAGIPHY : List Char := "##VIA_GIPHY##".toList

/-- The three replacement pairs handed to `strings.NewReplacer` in
`applyResponseTemplate`. -/
def tokenPairs (keywords gifURL : List Char) : List (List Char × List Char) :=
  [(tokKEYWORDS, keywords),
   (tokGIFURL, gifURL),
   (tokVIAGIPHY, viaGiphy)]

/-- One left-to-right pass of `strings.Replacer.Replace`: at each position,
if some pattern matches, emit its replacement and skip the matched text
(replacements are not rescanned); otherwise copy one character.  The fuel
argument (instantiated with the input length, which suffices because every
step consumes at least one character) makes the recursion structural. -/
def replacerRun (pairs : List (List Char × List Char)) : Nat → List Char → List Char
  | 0, s => s
  | _ + 1, [] => []
  | fuel + 1, c :: cs =>
    match pairs.find? (fun pr => pr.1.isPrefixOf (c :: cs)) with
    | some pr => pr.2 ++ replacerRun pairs fuel (cs.drop (pr.1.length - 1))
    | none => c :: replacerRun pairs fuel cs

/-- Function `applyResponseTemplate` from plugin.go. -/
def applyResponseTemplate (template keywords gifURL : List Char) : List Char :=
  replacerRun (tokenPairs keywords gifURL) template.length template

/-- The `fmt.Sprintf(" *Suggestions for '%s':*", keywords)` header in
`executeCommandGifs`. -/
def suggestionsHeader (keywords : List Char) : List Char :=
  " *Suggestions for '".toList ++ keywords ++ "':*".toList

/-- One markdown image link
`fmt.Sprintf("[![GIF for '%s'](%s)](%s)", keywords, url, url)`. -/
def gifLink (keywords url : List Char) : List Char :=
  "[![GIF for '".toList ++ keywords ++ "'](".toList ++ url ++ ")](".toList ++
    url ++ ")".toList

/-- The `for i, url := range gifURLs` loop of `executeCommandGifs`:
prepend a tab before every link except the first (index 0). -/
def gifsTextLoop (keywords : List Char) : Nat → List (List Char) → List Char → List Char
  | _, [], text => text
  | i, url :: rest, text =>
    gifsTextLoop keywords (i + 1) rest
      ((if i > 0 then text ++ ['\t'] else text) ++ gifLink keywords url)

/-- The full response text built by `executeCommandGifs`. -/
def gifsText (keywords : List Char) (gifURLs : List (List Char)) : List Char :=
  gifsTextLoop keywords 0 gifURLs (suggestionsHeader keywords)

/-- Handler `executeCommandGif` from plugin.go (the Go locals `keywords` and
`config` are inlined at their use sites). -/
def executeCommandGif (p : GiphyPlugin) (command : List Char) :
    GiphyPlugin × Except AppError CommandResponse :=
  match p.gifProvider.getGifURL (config p) (getCommandKeywords command triggerGif) with
  | .error err => (p, .error (appError "Unable to get GIF URL".toList (some err)))
  | .ok gifURL =>
    (p, .ok { ResponseType := COMMAND_RESPONSE_TYPE_IN_CHANNEL
              Text := applyResponseTemplate (config p).ResponseTemplate
                (getCommandKeywords command triggerGif) gifURL })

/-- Handler `executeCommandGifs` from plugin.go (the Go local `keywords` is inlined
at its use sites). -/
def executeCommandGifs (p : GiphyPlugin) (command : List Char) :
    GiphyPlugin × Except AppError CommandResponse :=
  match p.gifProvider.getMultipleGifsURL (config p) (getCommandKeywords command triggerGifs) with
  | .error err => (p, .error (appError "Unable to get GIF URL".toList (some err)))
  | .ok gifURLs =>
    (p, .ok { ResponseType := COMMAND_RESPONSE_TYPE_EPHEMERAL
              Text := gifsText (getCommandKeywords command triggerGifs) gifURLs })

/-- The unsupported-command error message (verbatim, including the missing
space before "is"). -/
def unsupportedMessage (command : List Char) : List Char :=
  "Command trigger ".toList ++ command ++ "is not supported by this plugin.".toList

/-- The disabled-plugin error message. -/
def disabledMessage : List Char :=
  "Cannot execute command while the plugin is disabled.".toList

/-- The missing-api error message. -/
def apiMessage : List Char :=
  "Cannot access the plugin API.".toList

/-- Hook `ExecuteCommand` from plugin.go. -/
def ExecuteCommand (p : GiphyPlugin) (args : CommandArgs) :
    GiphyPlugin × Except AppError CommandResponse :=
  if p.enabled = false then
    (p, .error (appError disabledMessage none))
  else if p.api = none then
    (p, .error (appError apiMessage none))
  else if ('/' :: triggerGifs).isPrefixOf args.Command then
    executeCommandGifs p args.Command
  else if ('/' :: triggerGif).isPrefixOf args.Command then
    executeCommandGif p args.Command
  else
    (p, .error (appError (unsupportedMessage args.Command) none))

/-- Decidable equality for `Except`, so that concrete runs of the embedded
dispatcher can be checked by `decide`. -/
instance exceptDecidableEq {e a : Type} [DecidableEq e] [DecidableEq a] :
    DecidableEq (Except e a) := fun x y =>
  match x, y with
  | .error e1, .error e2 =>
    if h : e1 = e2 then isTrue (by rw [h]) else isFalse (fun hh => h (Except.error.inj hh))
  | .error _, .ok _ => isFalse (fun hh => Except.noConfusion hh)
  | .ok _, .error _ => isFalse (fun hh => Except.noConfusion hh)
  | .ok v1, .ok v2 =>
    if h : v1 = v2 then isTrue (by rw [h]) else isFalse (fun hh => h (Except.ok.inj hh))

/-- The spec glossary's notion of trigger: the leading token of a slash
command, i.e. the text after the slash up to the first space. -/
def commandTrigger (commandLine : List Char) : List Char :=
  (commandLine.drop 1).takeWhile (fun c => c != ' ')

/-- Spec-side join: the given pieces separated by exactly one tab. -/
def joinTabs : List (List Char) → List Char
  | [] => []
  | [x] => x
  | x :: y :: rest => x ++ '\t' :: joinTabs (y :: rest)

section Lemmas

lemma isPrefixOf_append (l r : List Char) : l.isPrefixOf (l ++ r) = true := by
  induction l with
  | nil => simp [List.isPrefixOf]
  | cons a as ih => simp [List.isPrefixOf, ih]

lemma isPrefixOf_append_left (l1 l2 : List Char) :
    ∀ c : List Char, (l1 ++ l2).isPrefixOf c = true → l1.isPrefixOf c = true := by
  induction l1 with
  | nil => intro c _; simp [List.isPrefixOf]
  | cons a as ih =>
    intro c h
    cases c with
    | nil => simp [List.isPrefixOf] at h
    | cons b bs =>
      simp only [List.cons_append, List.isPrefixOf, Bool.and_eq_true] at h ⊢
      exact ⟨h.1, ih bs h.2⟩

lemma replaceFirst_append (pat rest : List Char) :
    replaceFirst (pat ++ rest) pat = rest := by
  rw [replaceFirst.eq_def]
  simp [isPrefixOf_append, List.drop_left]

lemma executeCommandGif_fst (p : GiphyPlugin) (command : List Char) :
    (executeCommandGif p command).1 = p := by
  unfold executeCommandGif
  cases h : p.gifProvider.getGifURL (config p) (getCommandKeywords command triggerGif) <;>
    simp [h]

lemma executeCommandGifs_fst (p : GiphyPlugin) (command : List Char) :
    (executeCommandGifs p command).1 = p := by
  unfold executeCommandGifs
  cases h : p.gifProvider.getMultipleGifsURL (config p) (getCommandKeywords command triggerGifs) <;>
    simp [h]

lemma ExecuteCommand_fst (p : GiphyPlugin) (args : CommandArgs) :
    (ExecuteCommand p args).1 = p := by
  unfold ExecuteCommand
  split
  · rfl
  split
  · rfl
  split
  · exact executeCommandGifs_fst p args.Command
  split
  · exact executeCommandGif_fst p args.Command
  · rfl

end Lemmas

/-- C2: keyword extraction removes exactly one leading occurrence of the
trigger substring (for every command line that begins with it) and trims
surrounding spaces; on the claim's concrete input it yields "happy kitty";
no further validation is applied: the empty command "/gif" yields empty
keywords, which `executeCommandGif` passes unchanged to the provider (the
extraction function is total and cannot reject them). -/
theorem getCommandKeywords_strips_one_leading_trigger :
    (∀ trigger rest : List Char,
      getCommandKeywords ('/' :: (trigger ++ rest)) trigger = trimSpaces rest) ∧
    getCommandKeywords "/gifs   happy kitty ".toList triggerGifs = "happy kitty".toList ∧
    getCommandKeywords ('/' :: triggerGif) triggerGif = [] := by
  refine ⟨?_, by decide, by decide⟩
  intro trigger rest
  unfold getCommandKeywords
  have h : ('/' :: trigger) ++ rest = '/' :: (trigger ++ rest) := by simp
  rw [← h, replaceFirst_append]

/-- C9: `OnConfigurationChange` stores the freshly loaded snapshot even when
the host load call fails: the previous snapshot is unconditionally replaced
by the loaded struct and the load error is returned. -/
theorem OnConfigurationChange_stores_on_failure :
    ∀ (p : GiphyPlugin) (loaded : GiphyPluginConfiguration) (e : List Char),
      ((OnConfigurationChange p (loaded, some e)).1).configuration = loaded ∧
      (OnConfigurationChange p (loaded, some e)).2 = some e ∧
      ∀ outcome, ((OnConfigurationChange p outcome).1).configuration = outcome.1 := by
  intro p loaded e
  exact ⟨rfl, rfl, fun _ => rfl⟩

/-- C10: `ExecuteCommand` and the per-trigger handlers leave the plugin
state (api handle, configuration snapshot, provider, enabled flag)
unchanged. -/
theorem ExecuteCommand_frame :
    ∀ (p : GiphyPlugin) (args : CommandArgs) (command : List Char),
      (ExecuteCommand p args).1 = p ∧
      (executeCommandGif p command).1 = p ∧
      (executeCommandGifs p command).1 = p := by
  intro p args command
  exact ⟨ExecuteCommand_fst p args, executeCommandGif_fst p command,
    executeCommandGifs_fst p command⟩

/-- C5: when the provider call succeeds, the single-GIF handler responds
with in-channel visibility and the multi-GIF handler with ephemeral
(caller-only) visibility. -/
theorem response_visibility :
    ∀ (p : GiphyPlugin) (command : List Char) (r : CommandResponse),
      ((executeCommandGif p command).2 = Except.ok r →
        r.ResponseType = COMMAND_RESPONSE_TYPE_IN_CHANNEL) ∧
      ((executeCommandGifs p command).2 = Except.ok r →
        r.ResponseType = COMMAND_RESPONSE_TYPE_EPHEMERAL) := by
  intro p command r
  constructor
  · intro h
    unfold executeCommandGif at h
    split at h
    · simp at h
    · simp only [Except.ok.injEq] at h
      rw [← h]
  · intro h
    unfold executeCommandGifs at h
    split at h
    · simp at h
    · simp only [Except.ok.injEq] at h
      rw [← h]

/-- Example configuration whose response template is just the URL
placeholder; used to instantiate theorems with hypotheses. -/
def exConfig : GiphyPluginConfiguration :=
  { Rating := [], Language := [], Rendition := [],
    ResponseTemplate := "##GIF_URL##".toList, APIKey := [] }

/-- Example provider that always succeeds, answering "u" (and ["u", "v"]
for the multi-GIF request). -/
def exProvider : GifProvider :=
  { getGifURL := fun _ _ => .ok "u".toList
    getMultipleGifsURL := fun _ _ => .ok ["u".toList, "v".toList] }

/-- Example provider that always fails with message "boom". -/
def errProvider : GifProvider :=
  { getGifURL := fun _ _ => .error "boom".toList
    getMultipleGifsURL := fun _ _ => .error "boom".toList }

/-- An activated example plugin with the succeeding provider. -/
def exPlugin : GiphyPlugin :=
  { api := some (), configuration := exConfig, gifProvider := exProvider, enabled := true }

/-- The example plugin, deactivated. -/
def exPluginDisabled : GiphyPlugin := { exPlugin with enabled := false }

/-- The example plugin with no api handle. -/
def exPluginNoAPI : GiphyPlugin := { exPlugin with api := none }

/-- The example plugin whose provider fails. -/
def exPluginErr : GiphyPlugin := { exPlugin with gifProvider := errProvider }

/-- C5 witness: at the example plugin, "/gif cat" yields an in-channel
response and "/gifs cat" an ephemeral one. -/
theorem response_visibility_witness :
    ((executeCommandGif exPlugin "/gif cat".toList).2 =
      Except.ok { ResponseType := COMMAND_RESPONSE_TYPE_IN_CHANNEL, Text := "u".toList }) ∧
    (COMMAND_RESPONSE_TYPE_IN_CHANNEL : List Char) = "in_channel".toList ∧
    ({ ResponseType := COMMAND_RESPONSE_TYPE_IN_CHANNEL, Text := "u".toList } :
      CommandResponse).ResponseType = COMMAND_RESPONSE_TYPE_IN_CHANNEL ∧
    ((executeCommandGifs exPlugin "/gifs cat".toList).2 =
      Except.ok { ResponseType := COMMAND_RESPONSE_TYPE_EPHEMERAL
                  Text := gifsText "cat".toList ["u".toList, "v".toList] }) ∧
    ({ ResponseType := COMMAND_RESPONSE_TYPE_EPHEMERAL
       Text := gifsText "cat".toList ["u".toList, "v".toList] } :
      CommandResponse).ResponseType = COMMAND_RESPONSE_TYPE_EPHEMERAL := by
  refine ⟨rfl, rfl, ?_, rfl, ?_⟩
  · exact (response_visibility exPlugin "/gif cat".toList _).1 rfl
  · exact (response_visibility exPlugin "/gifs cat".toList _).2 rfl

/-- C6: when the plugin is deactivated, `ExecuteCommand` returns the
disabled ("not ready") error regardless of the command line; when it is
activated but the api handle is unavailable, it returns the api error;
running `OnDeactivate` first always produces the disabled error. -/
theorem ExecuteCommand_not_ready :
    ∀ (p : GiphyPlugin) (args : CommandArgs),
      (p.enabled = false →
        (ExecuteCommand p args).2 = .error (appError disabledMessage none)) ∧
      (p.enabled = true → p.api = none →
        (ExecuteCommand p args).2 = .error (appError apiMessage none)) ∧
      (ExecuteCommand (OnDeactivate p).1 args).2 = .error (appError disabledMessage none) := by
  intro p args
  refine ⟨fun h => ?_, fun h1 h2 => ?_, ?_⟩
  · simp [ExecuteCommand, h]
  · simp [ExecuteCommand, h1, h2]
  · simp [ExecuteCommand, OnDeactivate]

/-- C6 witness: the disabled example plugin rejects a valid "/gif" command
with the disabled error, and the api-less one with the api error. -/
theorem ExecuteCommand_not_ready_witness :
    exPluginDisabled.enabled = false ∧
    (ExecuteCommand exPluginDisabled { Command := "/gif cat".toList }).2 =
      .error (appError disabledMessage none) ∧
    exPluginNoAPI.enabled = true ∧ exPluginNoAPI.api = none ∧
    (ExecuteCommand exPluginNoAPI { Command := "/gif cat".toList }).2 =
      .error (appError apiMessage none) := by
  refine ⟨rfl, ?_, rfl, rfl, ?_⟩
  · exact (ExecuteCommand_not_ready exPluginDisabled _).1 rfl
  · exact (ExecuteCommand_not_ready exPluginNoAPI _).2.1 rfl rfl

/-- C7: every error `ExecuteCommand` returns is a `model.AppError` built by
`appError`, carrying HTTP status 400, the fixed "Giphy Plugin" location and
one of the four human-readable messages (disabled, missing api,
unsupported trigger, provider failure); provider errors are wrapped with
the fixed message "Unable to get GIF URL" and the provider's own message as
detail.  The embedding calls the provider exactly once per invocation by
construction, so no retry can occur. -/
theorem ExecuteCommand_errors_shape :
    ∀ (p : GiphyPlugin) (args : CommandArgs) (e : AppError),
      ((ExecuteCommand p args).2 = .error e →
        e.StatusCode = 400 ∧ e.Where = "Giphy Plugin".toList ∧
        (e.Message = disabledMessage ∨ e.Message = apiMessage ∨
         e.Message = unsupportedMessage args.Command ∨
         e.Message = "Unable to get GIF URL".toList)) ∧
      (∀ perr,
        p.gifProvider.getGifURL (config p) (getCommandKeywords args.Command triggerGif) =
          .error perr →
        (executeCommandGif p args.Command).2 =
          .error (appError "Unable to get GIF URL".toList (some perr))) ∧
      (∀ perr,
        p.gifProvider.getMultipleGifsURL (config p)
            (getCommandKeywords args.Command triggerGifs) = .error perr →
        (executeCommandGifs p args.Command).2 =
          .error (appError "Unable to get GIF URL".toList (some perr))) := by
  intro p args e
  refine ⟨fun h => ?_, fun perr h => ?_, fun perr h => ?_⟩
  · unfold ExecuteCommand at h
    split at h
    · simp only [Except.error.injEq] at h
      subst h
      simp [appError]
    split at h
    · simp only [Except.error.injEq] at h
      subst h
      simp [appError]
    split at h
    · unfold executeCommandGifs at h
      split at h
      · simp only [Except.error.injEq] at h
        subst h
        simp [appError]
      · simp at h
    split at h
    · unfold executeCommandGif at h
      split at h
      · simp only [Except.error.injEq] at h
        subst h
        simp [appError]
      · simp at h
    · simp only [Except.error.injEq] at h
      subst h
      simp [appError]
  · unfold executeCommandGif
    rw [h]
  · unfold executeCommandGifs
    rw [h]

/-- C7 witness: at the failing-provider example plugin, "/gif cat" produces
the wrapped provider error with status 400, and both handlers wrap the
provider message "boom". -/
theorem ExecuteCommand_errors_shape_witness :
    ((ExecuteCommand exPluginErr { Command := "/gif cat".toList }).2 =
      .error (appError "Unable to get GIF URL".toList (some "boom".toList))) ∧
    ((appError "Unable to get GIF URL".toList (some "boom".toList)).StatusCode = 400 ∧
     (appError "Unable to get GIF URL".toList (some "boom".toList)).Where =
       "Giphy Plugin".toList ∧
     ((appError "Unable to get GIF URL".toList (some "boom".toList)).Message =
        disabledMessage ∨
      (appError "Unable to get GIF URL".toList (some "boom".toList)).Message = apiMessage ∨
      (appError "Unable to get GIF URL".toList (some "boom".toList)).Message =
        unsupportedMessage "/gif cat".toList ∨
      (appError "Unable to get GIF URL".toList (some "boom".toList)).Message =
        "Unable to get GIF URL".toList)) ∧
    ((executeCommandGif exPluginErr "/gif cat".toList).2 =
      .error (appError "Unable to get GIF URL".toList (some "boom".toList))) ∧
    ((executeCommandGifs exPluginErr "/gifs cat".toList).2 =
      .error (appError "Unable to get GIF URL".toList (some "boom".toList))) := by
  refine ⟨rfl, ?_, ?_, ?_⟩
  · exact (ExecuteCommand_errors_shape exPluginErr { Command := "/gif cat".toList }
      (appError "Unable to get GIF URL".toList (some "boom".toList))).1 rfl
  · exact (ExecuteCommand_errors_shape exPluginErr { Command := "/gif cat".toList }
      (appError [] none)).2.1 "boom".toList rfl
  · exact (ExecuteCommand_errors_shape exPluginErr { Command := "/gifs cat".toList }
      (appError [] none)).2.2 "boom".toList rfl

section GifsTextLemmas

lemma gifsTextLoop_pos (kw : List Char) :
    ∀ (urls : List (List Char)) (i : Nat) (text : List Char), 0 < i →
      gifsTextLoop kw i urls text =
        text ++ (urls.map (fun u => '\t' :: gifLink kw u)).flatten := by
  intro urls
  induction urls with
  | nil => intro i text _; simp [gifsTextLoop]
  | cons u rest ih =>
    intro i text hi
    rw [gifsTextLoop, if_pos hi, ih (i + 1) _ (Nat.succ_pos i)]
    simp

lemma joinTabs_cons (x : List Char) (xs : List (List Char)) :
    joinTabs (x :: xs) = x ++ (xs.map (fun y => '\t' :: y)).flatten := by
  induction xs generalizing x with
  | nil => simp [joinTabs]
  | cons y ys ih => rw [joinTabs, ih y]; simp

lemma gifsText_eq_joinTabs (kw : List Char) (urls : List (List Char)) :
    gifsText kw urls = suggestionsHeader kw ++ joinTabs (urls.map (gifLink kw)) := by
  cases urls with
  | nil => simp [gifsText, gifsTextLoop, joinTabs]
  | cons u rest =>
    rw [gifsText, gifsTextLoop, if_neg (by omega),
      gifsTextLoop_pos kw rest 1 _ Nat.one_pos, List.map_cons, joinTabs_cons]
    simp [List.map_map, Function.comp_def]

lemma gifLink_getLast (kw u : List Char) : (gifLink kw u).getLast? = some ')' := by
  rw [gifLink, show (")".toList : List Char) = [')'] from rfl]
  exact List.getLast?_concat _

lemma joinTabs_links_getLast (kw : List Char) :
    ∀ urls : List (List Char), urls ≠ [] →
      (joinTabs (urls.map (gifLink kw))).getLast? = some ')' := by
  intro urls
  induction urls with
  | nil => intro h; exact absurd rfl h
  | cons u rest ih =>
    intro _
    cases rest with
    | nil => simpa [joinTabs] using gifLink_getLast kw u
    | cons v rest' =>
      have hrec := ih (List.cons_ne_nil v rest')
      simp only [List.map_cons, joinTabs] at hrec ⊢
      cases hjt : joinTabs (gifLink kw v :: List.map (gifLink kw) rest') with
      | nil => rw [hjt] at hrec; simp at hrec
      | cons a jt =>
        rw [hjt] at hrec
        rw [List.getLast?_append_of_ne_nil _ (by simp), List.getLast?_cons_cons]
        exact hrec

end GifsTextLemmas

/-- C4: when the provider returns a non-empty list of URLs on the multi-GIF
path, the response text is the suggestions header followed by exactly one
markdown image link per URL, consecutive links joined by exactly one tab
character, and the text ends with a closing parenthesis, not a tab. -/
theorem executeCommandGifs_text_shape :
    ∀ (p : GiphyPlugin) (command : List Char) (urls : List (List Char)),
      p.gifProvider.getMultipleGifsURL (config p) (getCommandKeywords command triggerGifs) =
        .ok urls →
      urls ≠ [] →
      (executeCommandGifs p command).2 = .ok
        { ResponseType := COMMAND_RESPONSE_TYPE_EPHEMERAL
          Text := suggestionsHeader (getCommandKeywords command triggerGifs) ++
            joinTabs (urls.map (gifLink (getCommandKeywords command triggerGifs))) } ∧
      (gifsText (getCommandKeywords command triggerGifs) urls).getLast? = some ')' ∧
      (gifsText (getCommandKeywords command triggerGifs) urls).getLast? ≠ some '\t' := by
  intro p command urls h hne
  have hlast : (gifsText (getCommandKeywords command triggerGifs) urls).getLast? = some ')' := by
    rw [gifsText_eq_joinTabs]
    have hjt := joinTabs_links_getLast (getCommandKeywords command triggerGifs) urls hne
    cases hjt2 : joinTabs (urls.map (gifLink (getCommandKeywords command triggerGifs))) with
    | nil => rw [hjt2] at hjt; simp at hjt
    | cons a jt =>
      rw [hjt2] at hjt
      rw [List.getLast?_append_of_ne_nil _ (by simp)]
      exact hjt
  refine ⟨?_, hlast, ?_⟩
  · unfold executeCommandGifs
    simp [h, gifsText_eq_joinTabs]
  · rw [hlast]
    simp

/-- C4 witness: the example plugin answers "/gifs cat" with two tab-joined
links ending in a parenthesis. -/
theorem executeCommandGifs_text_shape_witness :
    (exPlugin.gifProvider.getMultipleGifsURL (config exPlugin)
        (getCommandKeywords "/gifs cat".toList triggerGifs) =
      .ok ["u".toList, "v".toList]) ∧
    (["u".toList, "v".toList] ≠ ([] : List (List Char))) ∧
    ((executeCommandGifs exPlugin "/gifs cat".toList).2 = .ok
      { ResponseType := COMMAND_RESPONSE_TYPE_EPHEMERAL
        Text := suggestionsHeader (getCommandKeywords "/gifs cat".toList triggerGifs) ++
          joinTabs ((["u".toList, "v".toList]).map
            (gifLink (getCommandKeywords "/gifs cat".toList triggerGifs))) } ∧
    (gifsText (getCommandKeywords "/gifs cat".toList triggerGifs)
        ["u".toList, "v".toList]).getLast? = some ')' ∧
    (gifsText (getCommandKeywords "/gifs cat".toList triggerGifs)
        ["u".toList, "v".toList]).getLast? ≠ some '\t') := by
  refine ⟨rfl, by simp, ?_⟩
  exact executeCommandGifs_text_shape exPlugin "/gifs cat".toList
    ["u".toList, "v".toList] rfl (by simp)

/-- C1 counterexample: the command line "/gifzzz kitty" has trigger
"gifzzz", which is neither of the two known triggers, yet `ExecuteCommand`
does not return the unsupported-command error: the prefix match on "/gif"
sends it to the single-GIF handler, which consults the provider and posts
its URL ("u" from the example provider) in channel. -/
theorem ExecuteCommand_unknown_trigger_counterexample :
    commandTrigger "/gifzzz kitty".toList ≠ triggerGif ∧
    commandTrigger "/gifzzz kitty".toList ≠ triggerGifs ∧
    exPlugin.enabled = true ∧ exPlugin.api ≠ none ∧
    (ExecuteCommand exPlugin { Command := "/gifzzz kitty".toList }).2 ≠
      .error (appError (unsupportedMessage "/gifzzz kitty".toList) none) ∧
    (ExecuteCommand exPlugin { Command := "/gifzzz kitty".toList }).2 =
      .ok { ResponseType := COMMAND_RESPONSE_TYPE_IN_CHANNEL, Text := "u".toList } := by
  exact ⟨by decide, by decide, rfl, by simp [exPlugin], by decide, rfl⟩

/-- C1 amended: for every command line that does not carry the prefix
"/gif" (which covers every line whose leading token is unrelated to the
two triggers, but not lines like "/gifzzz" that merely extend them),
`ExecuteCommand` on a ready plugin returns the unsupported-command error,
and the result is the same for every provider — the provider is never
consulted. -/
theorem ExecuteCommand_unsupported_without_gif_lead :
    ∀ (p : GiphyPlugin) (g : GifProvider) (args : CommandArgs),
      p.enabled = true → p.api ≠ none →
      ('/' :: triggerGif).isPrefixOf args.Command = false →
      (ExecuteCommand p args).2 =
        .error (appError (unsupportedMessage args.Command) none) ∧
      (ExecuteCommand { p with gifProvider := g } args).2 = (ExecuteCommand p args).2 := by
  intro p g args h1 h2 h3
  have hgifs : ('/' :: triggerGifs).isPrefixOf args.Command = false := by
    cases hh : ('/' :: triggerGifs).isPrefixOf args.Command with
    | false => rfl
    | true =>
      have : ('/' :: triggerGif).isPrefixOf args.Command = true := by
        have hsplit : ('/' :: triggerGifs) = ('/' :: triggerGif) ++ ['s'] := by decide
        exact isPrefixOf_append_left ('/' :: triggerGif) ['s'] args.Command (hsplit ▸ hh)
      rw [this] at h3
      exact Bool.noConfusion h3
  have hmain : (ExecuteCommand p args).2 =
      .error (appError (unsupportedMessage args.Command) none) := by
    simp [ExecuteCommand, h1, h2, h3, hgifs]
  refine ⟨hmain, ?_⟩
  have hmain2 : (ExecuteCommand { p with gifProvider := g } args).2 =
      .error (appError (unsupportedMessage args.Command) none) := by
    simp [ExecuteCommand, h1, h2, h3, hgifs]
  rw [hmain, hmain2]

/-- C1 amended witness: "/foo bar" on the ready example plugin yields the
unsupported-command error for both the succeeding and the failing
provider. -/
theorem ExecuteCommand_unsupported_witness :
    exPlugin.enabled = true ∧ exPlugin.api ≠ none ∧
    ('/' :: triggerGif).isPrefixOf "/foo bar".toList = false ∧
    ((ExecuteCommand exPlugin { Command := "/foo bar".toList }).2 =
      .error (appError (unsupportedMessage "/foo bar".toList) none) ∧
    (ExecuteCommand { exPlugin with gifProvider := errProvider }
        { Command := "/foo bar".toList }).2 =
      (ExecuteCommand exPlugin { Command := "/foo bar".toList }).2) := by
  refine ⟨rfl, by simp [exPlugin], by decide, ?_⟩
  exact ExecuteCommand_unsupported_without_gif_lead exPlugin errProvider
    { Command := "/foo bar".toList } rfl (by simp [exPlugin]) (by decide)

/-- Abbreviation for `replacerRun` at its canonical fuel (the input length). -/
def replaceTokens (keywords gifURL s : List Char) : List Char :=
  replacerRun (tokenPairs keywords gifURL) s.length s

/-- The claim's concrete keywords "cat". -/
def catKeywords : List Char := "cat".toList

/-- The claim's concrete URL "http://x/y.gif". -/
def catURL : List Char := "http://x/y.gif".toList

/-- Spec-side: the replacement text each placeholder token stands for at
keywords "cat" and URL "http://x/y.gif". -/
def substPlaceholder (t : List Char) : List Char :=
  if t = tokKEYWORDS then catKeywords
  else if t = tokGIFURL then catURL
  else viaGiphy

section ReplacerLemmas

lemma replacerRun_fuel (pairs : List (List Char × List Char)) :
    ∀ (f1 : Nat) (s : List Char) (f2 : Nat), s.length ≤ f1 → s.length ≤ f2 →
      replacerRun pairs f1 s = replacerRun pairs f2 s := by
  intro f1
  induction f1 with
  | zero =>
    intro s f2 h1 _
    have hs : s = [] := List.eq_nil_of_length_eq_zero (Nat.le_zero.mp h1)
    subst hs
    cases f2 <;> rfl
  | succ f1 ih =>
    intro s f2 h1 h2
    cases s with
    | nil => cases f2 <;> rfl
    | cons c cs =>
      cases f2 with
      | zero => simp at h2
      | succ f2 =>
        simp only [List.length_cons, Nat.add_le_add_iff_right] at h1 h2
        simp only [replacerRun]
        cases hf : pairs.find? (fun pr => pr.1.isPrefixOf (c :: cs)) with
        | some pr =>
          simp only [hf]
          refine congrArg (fun x => pr.2 ++ x) (ih _ f2 ?_ ?_) <;>
            · rw [List.length_drop]
              omega
        | none =>
          simp only [hf]
          refine congrArg (fun x => c :: x) (ih cs f2 ?_ ?_) <;> omega

lemma find_none_of_ne_hash (kw url : List Char) {c : Char} (hc : c ≠ '#') (cs : List Char) :
    (tokenPairs kw url).find? (fun pr => pr.1.isPrefixOf (c :: cs)) = none := by
  have hbeq : ('#' == c) = false := beq_eq_false_iff_ne.mpr (Ne.symm hc)
  have h1 : tokKEYWORDS.isPrefixOf (c :: cs) = false := by
    rw [show tokKEYWORDS = '#' :: "#KEYWORDS##".toList from rfl]
    simp [List.isPrefixOf, hbeq]
  have h2 : tokGIFURL.isPrefixOf (c :: cs) = false := by
    rw [show tokGIFURL = '#' :: "#GIF_URL##".toList from rfl]
    simp [List.isPrefixOf, hbeq]
  have h3 : tokVIAGIPHY.isPrefixOf (c :: cs) = false := by
    rw [show tokVIAGIPHY = '#' :: "#VIA_GIPHY##".toList from rfl]
    simp [List.isPrefixOf, hbeq]
  simp [tokenPairs, List.find?, h1, h2, h3]

lemma replaceTokens_cons_ne_hash (kw url : List Char) {c : Char} (hc : c ≠ '#')
    (s : List Char) :
    replaceTokens kw url (c :: s) = c :: replaceTokens kw url s := by
  show replacerRun (tokenPairs kw url) (s.length + 1) (c :: s) = _
  simp only [replacerRun, find_none_of_ne_hash kw url hc s]
  rfl

lemma replaceTokens_hash_free (kw url : List Char) :
    ∀ a rest : List Char, '#' ∉ a →
      replaceTokens kw url (a ++ rest) = a ++ replaceTokens kw url rest := by
  intro a
  induction a with
  | nil => intro rest _; simp
  | cons c a' ih =>
    intro rest h
    have hc : c ≠ '#' := fun e => h (by simp [e])
    have ha' : '#' ∉ a' := fun m => h (List.mem_cons_of_mem c m)
    rw [List.cons_append, replaceTokens_cons_ne_hash kw url hc, ih rest ha',
      List.cons_append]

lemma replaceTokens_hash_free_all (kw url a : List Char) (h : '#' ∉ a) :
    replaceTokens kw url a = a := by
  have hh := replaceTokens_hash_free kw url a [] h
  simpa [show replaceTokens kw url ([] : List Char) = [] from rfl] using hh

lemma replaceTokens_step (kw url tok tail repl : List Char)
    (htok : tok = '#' :: tail)
    (hfind : ∀ rest : List Char,
      (tokenPairs kw url).find? (fun pr => pr.1.isPrefixOf (tok ++ rest)) =
        some (tok, repl))
    (rest : List Char) :
    replaceTokens kw url (tok ++ rest) = repl ++ replaceTokens kw url rest := by
  have hshape : tok ++ rest = '#' :: (tail ++ rest) := by rw [htok, List.cons_append]
  show replacerRun (tokenPairs kw url) (tok ++ rest).length (tok ++ rest) =
    repl ++ replacerRun (tokenPairs kw url) rest.length rest
  rw [hshape]
  simp only [List.length_cons, replacerRun]
  rw [← List.cons_append, ← htok, hfind rest]
  show repl ++ replacerRun (tokenPairs kw url) (tail ++ rest).length
      ((tail ++ rest).drop (tok.length - 1)) =
    repl ++ replacerRun (tokenPairs kw url) rest.length rest
  rw [show tok.length - 1 = tail.length from by rw [htok]; simp, List.drop_left]
  refine congrArg (fun x => repl ++ x) (replacerRun_fuel _ _ rest rest.length ?_ (Nat.le_refl _))
  rw [List.length_append]
  omega

lemma tokKEYWORDS_not_prefix_GIFURL (rest : List Char) :
    tokKEYWORDS.isPrefixOf (tokGIFURL ++ rest) = false := by
  have hKG : (('K' : Char) == 'G') = false := by decide
  rw [show tokKEYWORDS = '#' :: '#' :: 'K' :: "EYWORDS##".toList from rfl,
    show tokGIFURL = '#' :: '#' :: 'G' :: "IF_URL##".toList from rfl]
  simp [List.isPrefixOf, List.cons_append, hKG]

lemma tokKEYWORDS_not_prefix_VIAGIPHY (rest : List Char) :
    tokKEYWORDS.isPrefixOf (tokVIAGIPHY ++ rest) = false := by
  have hKV : (('K' : Char) == 'V') = false := by decide
  rw [show tokKEYWORDS = '#' :: '#' :: 'K' :: "EYWORDS##".toList from rfl,
    show tokVIAGIPHY = '#' :: '#' :: 'V' :: "IA_GIPHY##".toList from rfl]
  simp [List.isPrefixOf, List.cons_append, hKV]

lemma tokGIFURL_not_prefix_VIAGIPHY (rest : List Char) :
    tokGIFURL.isPrefixOf (tokVIAGIPHY ++ rest) = false := by
  have hGV : (('G' : Char) == 'V') = false := by decide
  rw [show tokGIFURL = '#' :: '#' :: 'G' :: "IF_URL##".toList from rfl,
    show tokVIAGIPHY = '#' :: '#' :: 'V' :: "IA_GIPHY##".toList from rfl]
  simp [List.isPrefixOf, List.cons_append, hGV]

lemma find_at_tokKEYWORDS (kw url rest : List Char) :
    (tokenPairs kw url).find? (fun pr => pr.1.isPrefixOf (tokKEYWORDS ++ rest)) =
      some (tokKEYWORDS, kw) := by
  simp [tokenPairs, List.find?, isPrefixOf_append]

lemma find_at_tokGIFURL (kw url rest : List Char) :
    (tokenPairs kw url).find? (fun pr => pr.1.isPrefixOf (tokGIFURL ++ rest)) =
      some (tokGIFURL, url) := by
  simp [tokenPairs, List.find?, isPrefixOf_append, tokKEYWORDS_not_prefix_GIFURL]

lemma find_at_tokVIAGIPHY (kw url rest : List Char) :
    (tokenPairs kw url).find? (fun pr => pr.1.isPrefixOf (tokVIAGIPHY ++ rest)) =
      some (tokVIAGIPHY, viaGiphy) := by
  simp [tokenPairs, List.find?, isPrefixOf_append, tokKEYWORDS_not_prefix_VIAGIPHY,
    tokGIFURL_not_prefix_VIAGIPHY]

lemma replaceTokens_tok_mem (t rest : List Char)
    (ht : t ∈ [tokKEYWORDS, tokGIFURL, tokVIAGIPHY]) :
    replaceTokens catKeywords catURL (t ++ rest) =
      substPlaceholder t ++ replaceTokens catKeywords catURL rest := by
  have ht3 : t = tokKEYWORDS ∨ t = tokGIFURL ∨ t = tokVIAGIPHY := by simpa using ht
  rcases ht3 with rfl | rfl | rfl
  · rw [replaceTokens_step catKeywords catURL tokKEYWORDS "#KEYWORDS##".toList catKeywords
        rfl (find_at_tokKEYWORDS catKeywords catURL) rest,
      show substPlaceholder tokKEYWORDS = catKeywords from by decide]
  · rw [replaceTokens_step catKeywords catURL tokGIFURL "#GIF_URL##".toList catURL
        rfl (find_at_tokGIFURL catKeywords catURL) rest,
      show substPlaceholder tokGIFURL = catURL from by decide]
  · rw [replaceTokens_step catKeywords catURL tokVIAGIPHY "#VIA_GIPHY##".toList viaGiphy
        rfl (find_at_tokVIAGIPHY catKeywords catURL) rest,
      show substPlaceholder tokVIAGIPHY = viaGiphy from by decide]

end ReplacerLemmas

/-- C3 counterexample: the template "x" contains none of the three
placeholder tokens, so `applyResponseTemplate` leaves it unchanged and no
decomposition of it into surrounding text plus one occurrence of each of
the three tokens exists — the three tokens cannot each be replaced exactly
once in every template. -/
theorem applyResponseTemplate_not_always_once :
    applyResponseTemplate "x".toList catKeywords catURL = "x".toList ∧
    ¬ ∃ a0 a1 a2 a3 p1 p2 p3 : List Char,
        [p1, p2, p3].Perm [tokKEYWORDS, tokGIFURL, tokVIAGIPHY] ∧
        "x".toList = a0 ++ p1 ++ a1 ++ p2 ++ a2 ++ p3 ++ a3 ∧
        applyResponseTemplate "x".toList catKeywords catURL =
          a0 ++ substPlaceholder p1 ++ a1 ++ substPlaceholder p2 ++ a2 ++
            substPlaceholder p3 ++ a3 := by
  constructor
  · decide
  · rintro ⟨a0, a1, a2, a3, p1, p2, p3, hperm, heq, -⟩
    have e1 : tokKEYWORDS.length = 12 := rfl
    have e2 : tokGIFURL.length = 11 := rfl
    have e3 : tokVIAGIPHY.length = 13 := rfl
    have hsum : p1.length + p2.length + p3.length = 36 := by
      have h := (hperm.map List.length).sum_eq
      simp [e1, e2, e3] at h
      omega
    have hlen := congrArg List.length heq
    simp [List.length_append] at hlen
    omega

/-- C3 amended: for every template that consists of the three placeholder
tokens, in any order, each occurring exactly once and separated by text
containing no '#' character, `applyResponseTemplate` at keywords "cat" and
URL "http://x/y.gif" replaces each token exactly once with its replacement
text, leaves all other characters unchanged, and does so independently of
the order in which the placeholders appear. -/
theorem applyResponseTemplate_each_token_once :
    ∀ a0 a1 a2 a3 p1 p2 p3 : List Char,
      '#' ∉ a0 → '#' ∉ a1 → '#' ∉ a2 → '#' ∉ a3 →
      [p1, p2, p3].Perm [tokKEYWORDS, tokGIFURL, tokVIAGIPHY] →
      applyResponseTemplate (a0 ++ p1 ++ a1 ++ p2 ++ a2 ++ p3 ++ a3) catKeywords catURL =
        a0 ++ substPlaceholder p1 ++ a1 ++ substPlaceholder p2 ++ a2 ++
          substPlaceholder p3 ++ a3 := by
  intro a0 a1 a2 a3 p1 p2 p3 h0 h1 h2 h3 hperm
  have hm1 : p1 ∈ [tokKEYWORDS, tokGIFURL, tokVIAGIPHY] := hperm.mem_iff.mp (by simp)
  have hm2 : p2 ∈ [tokKEYWORDS, tokGIFURL, tokVIAGIPHY] := hperm.mem_iff.mp (by simp)
  have hm3 : p3 ∈ [tokKEYWORDS, tokGIFURL, tokVIAGIPHY] := hperm.mem_iff.mp (by simp)
  show replaceTokens catKeywords catURL _ = _
  simp only [List.append_assoc]
  rw [replaceTokens_hash_free catKeywords catURL a0 _ h0, replaceTokens_tok_mem p1 _ hm1,
    replaceTokens_hash_free catKeywords catURL a1 _ h1, replaceTokens_tok_mem p2 _ hm2,
    replaceTokens_hash_free catKeywords catURL a2 _ h2, replaceTokens_tok_mem p3 _ hm3,
    replaceTokens_hash_free_all catKeywords catURL a3 h3]

/-- C3 witness: a template carrying the three placeholders in the order
URL, attribution, keywords, separated by '#'-free text, is rewritten to the
same text with each placeholder substituted once. -/
theorem applyResponseTemplate_each_token_once_witness :
    ('#' ∉ "A ".toList) ∧ ('#' ∉ " B ".toList) ∧ ('#' ∉ " C ".toList) ∧
    ('#' ∉ "!".toList) ∧
    [tokGIFURL, tokVIAGIPHY, tokKEYWORDS].Perm [tokKEYWORDS, tokGIFURL, tokVIAGIPHY] ∧
    applyResponseTemplate
        ("A ".toList ++ tokGIFURL ++ " B ".toList ++ tokVIAGIPHY ++ " C ".toList ++
          tokKEYWORDS ++ "!".toList) catKeywords catURL =
      "A ".toList ++ substPlaceholder tokGIFURL ++ " B ".toList ++
        substPlaceholder tokVIAGIPHY ++ " C ".toList ++ substPlaceholder tokKEYWORDS ++
        "!".toList := by
  refine ⟨by decide, by decide, by decide, by decide, by decide, ?_⟩
  exact applyResponseTemplate_each_token_once "A ".toList " B ".toList " C ".toList
    "!".toList tokGIFURL tokVIAGIPHY tokKEYWORDS (by decide) (by decide) (by decide)
    (by decide) (by decide)

end Giphy
